import Mathlib

/-
Shallow embedding of src/tangent_to_midi.py (the OSC-to-MIDI translation core).

Modelling conventions:
- Python numeric values (int/float OSC arguments and value_map bounds) are
  modelled as exact rationals (ℚ); `int(x)` is truncation toward zero.
- An OSC argument is either a number or a string (python-osc delivers both).
- Every Python exception inside the handler's try block (IndexError on
  `args[0]`, TypeError on comparing a str with a number, ValueError on
  `int(non-numeric-str)`, ZeroDivisionError in `scale_value`, KeyError on a
  missing dict key, and mido's ValueError on out-of-range message data) is
  caught by the `except` at tangent_to_midi.py:129 and results in no message;
  in the model each such failure point returns `none` / falls through to
  `(st, none)`.  In the `cc_relative` branch the state write at line 121
  happens before the `mido.Message` call at line 123, so a failure there
  leaves the mutated state in place; the model preserves that ordering.
- The module-level dict `cc_values` (line 75) is modelled as an association
  list from control number to value, threaded through the handler explicitly.
-/

/-- A Python value as it reaches the handler: a number (int or float,
modelled exactly as ℚ) or a string. -/
inductive PyVal where
  | num (q : ℚ)
  | str (s : String)
deriving DecidableEq

/-- The `value_map` sub-dict of a `cc_absolute` mapping entry
(tangent_to_midi.py:69). -/
structure ValueMap where
  in_min : ℚ
  in_max : ℚ
  out_min : ℚ
  out_max : ℚ
deriving DecidableEq

/-- One mapping entry: a Python dict whose keys may each be absent
(an absent key raises KeyError, caught by the handler's except block).
Field order: type, channel, note, control, value_map. -/
structure Rule where
  type_ : Option String
  channel : Option Int
  note : Option Int
  control : Option Int
  value_map : Option ValueMap
deriving DecidableEq

/-- A logical MIDI message as constructed by `mido.Message`
(tangent_to_midi.py:102,109,123). -/
inductive MidiMsg where
  | note_on (channel note velocity : Int)
  | control_change (channel control value : Int)
deriving DecidableEq

/-- The static mapping table MIDI_MAPPING (tangent_to_midi.py:34-71). -/
def MIDI_MAPPING : List (String × Rule) :=
  [ ("/tangent/bt/A/press", ⟨some "note_on_off", some 0, some 60, none, none⟩),
    ("/tangent/kn/A/delta", ⟨some "cc_relative", some 0, none, some 20, none⟩),
    ("/tangent/wh/A/delta", ⟨some "cc_relative", some 0, none, some 21, none⟩),
    ("/tangent/sl/A/value", ⟨some "cc_absolute", some 0, none, some 22,
      some ⟨0, 1, 0, 127⟩⟩) ]

/-- The relative-control state dict: control number -> current value. -/
abbrev CCState := List (Int × Int)

/-- The initial (empty) `cc_values` dict (tangent_to_midi.py:75). -/
def cc_values : CCState := []

/-- Dict read: `cc_values[k]` if present (`k in cc_values` test). -/
def getVal (k : Int) : CCState → Option Int
  | [] => none
  | (k2, v) :: rest => if k2 = k then some v else getVal k rest

/-- Dict write: `cc_values[k] = v` (update in place or append). -/
def setKey (k v : Int) : CCState → CCState
  | [] => [(k, v)]
  | (k2, v2) :: rest =>
    if k2 = k then (k, v) :: rest else (k2, v2) :: setKey k v rest

/-- Exact-match lookup `address in MIDI_MAPPING` + `MIDI_MAPPING[address]`
(tangent_to_midi.py:94-95). -/
def lookupTable (table : List (String × Rule)) (address : String) : Option Rule :=
  match table with
  | [] => none
  | (a, r) :: rest => if a = address then some r else lookupTable rest address

/-- Python `int(q)` on a number: truncation toward zero. -/
def ratTrunc (q : ℚ) : Int := if 0 ≤ q then ⌊q⌋ else ⌈q⌉

/-- scale_value (tangent_to_midi.py:79-87): clamp into the input range, map
linearly, truncate to an integer.  Python raises ZeroDivisionError when
`in_span = 0`; the dispatch path guards that case separately
(`scale_valueE`), so this pure version uses Lean's q/0 = 0 convention. -/
def scale_value (value in_min in_max out_min out_max : ℚ) : Int :=
  let v := max in_min (min in_max value)
  let in_span := in_max - in_min
  let out_span := out_max - out_min
  let scaled := (v - in_min) / in_span
  ratTrunc (out_min + scaled * out_span)

/-- `scale_value(osc_val, ...)` as called from the dispatch path
(tangent_to_midi.py:108): a str argument raises TypeError at the min/max
comparison, and `in_span = 0` raises ZeroDivisionError; both are caught by
the handler, so both are `none` here. -/
def scale_valueE (v : PyVal) (vm : ValueMap) : Option Int :=
  match v with
  | .str _ => none
  | .num q =>
    if vm.in_max - vm.in_min = 0 then none
    else some (scale_value q vm.in_min vm.in_max vm.out_min vm.out_max)

/-- Python `args[0] > 0` (tangent_to_midi.py:101): defined on numbers,
TypeError (hence `none`) on a string. -/
def pyGtZero : PyVal → Option Bool
  | .num q => some (decide (0 < q))
  | .str _ => none

/-- Continuation of the digit parse: after at least one digit, each further
character is a digit or a single underscore that sits between two digits
(Python allows `1_0` but rejects `1_`, `_1`, `1__0`). -/
def parseDigits (acc : Nat) : List Char → Option Nat
  | [] => some acc
  | '_' :: c :: rest =>
    if c.isDigit then parseDigits (acc * 10 + (c.toNat - 48)) rest else none
  | ['_'] => none
  | c :: rest =>
    if c.isDigit then parseDigits (acc * 10 + (c.toNat - 48)) rest else none

/-- A nonempty digit group: a digit followed by digits with optional single
underscore separators. -/
def digitsToNat : List Char → Option Nat
  | [] => none
  | c :: rest => if c.isDigit then parseDigits (c.toNat - 48) rest else none

/-- Python `int(s)` on a string: strip surrounding whitespace, accept an
optional `+` or `-` sign directly followed by digits with optional single
underscore separators between digits; anything else raises ValueError.
(Python additionally accepts non-ASCII Unicode digits and whitespace;
those play no role in any claim.) -/
def pyParseInt (s : String) : Option Int :=
  let cs := ((s.data.dropWhile Char.isWhitespace).reverse.dropWhile
    Char.isWhitespace).reverse
  match cs with
  | '+' :: rest => (digitsToNat rest).map (fun n => (n : Int))
  | '-' :: rest => (digitsToNat rest).map (fun n => -(n : Int))
  | _ => (digitsToNat cs).map (fun n => (n : Int))

/-- Python `int(args[0])` (tangent_to_midi.py:113): truncates a number
toward zero; parses an integer-shaped string; ValueError/TypeError
(hence `none`) otherwise. -/
def pyInt : PyVal → Option Int
  | .num q => some (ratTrunc q)
  | .str s => pyParseInt s

/-- `mido.Message('note_on', ...)` (tangent_to_midi.py:102): mido validates
channel 0-15 and data bytes 0-127, raising ValueError (caught) otherwise. -/
def mido_note_on (channel note velocity : Int) : Option MidiMsg :=
  if 0 ≤ channel ∧ channel ≤ 15 ∧ 0 ≤ note ∧ note ≤ 127
      ∧ 0 ≤ velocity ∧ velocity ≤ 127 then
    some (.note_on channel note velocity)
  else none

/-- `mido.Message('control_change', ...)` (tangent_to_midi.py:109,123). -/
def mido_control_change (channel control value : Int) : Option MidiMsg :=
  if 0 ≤ channel ∧ channel ≤ 15 ∧ 0 ≤ control ∧ control ≤ 127
      ∧ 0 ≤ value ∧ value ≤ 127 then
    some (.control_change channel control value)
  else none

/-- The cc_relative accumulation step (tangent_to_midi.py:117-121):
initialize to 64 when the control is unseen, add the delta, clamp to
[0, 127]. -/
def accumulate (st : CCState) (control delta : Int) : Int :=
  max 0 (min 127 ((getVal control st).getD 64 + delta))

/-- The body of the handler for a mapped address
(tangent_to_midi.py:95-130): the try block's dispatch on `mapping["type"]`,
with every caught exception collapsing to `(state, none)`.  State is
returned alongside the optional message; only the cc_relative branch
writes to it, and its write precedes the message construction. -/
def handleRule (mapping : Rule) (args : List PyVal) (st : CCState) :
    CCState × Option MidiMsg :=
  match mapping.type_ with
  | none => (st, none)
  | some t =>
    if t = "note_on_off" then
      match args.head? with
      | none => (st, none)
      | some a0 =>
        match pyGtZero a0 with
        | none => (st, none)
        | some b =>
          let velocity : Int := if b then 127 else 0
          match mapping.channel, mapping.note with
          | some ch, some n => (st, mido_note_on ch n velocity)
          | _, _ => (st, none)
    else if t = "cc_absolute" then
      match args.head?, mapping.value_map with
      | some a0, some vm =>
        match scale_valueE a0 vm with
        | none => (st, none)
        | some midi_val =>
          match mapping.channel, mapping.control with
          | some ch, some c => (st, mido_control_change ch c midi_val)
          | _, _ => (st, none)
      | _, _ => (st, none)
    else if t = "cc_relative" then
      match args.head? with
      | none => (st, none)
      | some a0 =>
        match pyInt a0 with
        | none => (st, none)
        | some delta =>
          match mapping.control with
          | none => (st, none)
          | some control =>
            let nv : Int := accumulate st control delta
            let st2 := setKey control nv st
            match mapping.channel with
            | none => (st2, none)
            | some ch => (st2, mido_control_change ch control nv)
    else (st, none)

/-- osc_handler (tangent_to_midi.py:89-130): look up the address; if
unmapped do nothing, otherwise run the rule body. -/
def osc_handler (table : List (String × Rule)) (address : String)
    (args : List PyVal) (st : CCState) : CCState × Option MidiMsg :=
  match lookupTable table address with
  | none => (st, none)
  | some mapping => handleRule mapping args st

/-- The source builds MIDI_MAPPING as a plain dict literal
(tangent_to_midi.py:34-71) and `main` (lines 132-168) performs no check on
it: constructing the table never fails, whatever the entries. -/
def buildMappingTable (entries : List (String × Rule)) :
    Except String (List (String × Rule)) :=
  Except.ok entries

/-- Follows the spec's words, for comparison with the code: the target is
the note for a NoteOnOff rule and the control number otherwise. -/
def spec_target (r : Rule) : Option Int :=
  if r.type_ = some "note_on_off" then r.note else r.control

/-- Follows the spec's words (section 4.1), for comparison with the code:
channel in 0-15, target in 0-127, and for AbsoluteCC rules in_min < in_max
and out_min ≤ out_max. -/
def spec_validEntryB (r : Rule) : Bool :=
  (match r.channel with
   | some ch => decide (0 ≤ ch ∧ ch ≤ 15)
   | none => false) &&
  (match spec_target r with
   | some tg => decide (0 ≤ tg ∧ tg ≤ 127)
   | none => false) &&
  (if r.type_ = some "cc_absolute" then
     match r.value_map with
     | some vm => decide (vm.in_min < vm.in_max ∧ vm.out_min ≤ vm.out_max)
     | none => false
   else true)

/-- A two-rule table whose RelativeCC rules share a control number but
sit on different channels: the source keys `cc_values` by control number
alone, so these two rules share accumulated state. -/
def twoRuleTable : List (String × Rule) :=
  [ ("/a/delta", ⟨some "cc_relative", some 0, none, some 20, none⟩),
    ("/b/delta", ⟨some "cc_relative", some 1, none, some 20, none⟩) ]

/-- A one-rule table whose rule carries an unrecognized type string. -/
def bogusTable : List (String × Rule) :=
  [ ("/x/bend", ⟨some "pitch_bend", some 0, none, some 5, none⟩) ]

/- ### Helper lemmas -/

/-- Writing one key of the state dict leaves every other key unchanged. -/
theorem getVal_setKey_ne (k c v : Int) (st : CCState) (h : k ≠ c) :
    getVal k (setKey c v st) = getVal k st := by
  induction st with
  | nil => simp [setKey, getVal, Ne.symm h]
  | cons p rest ih =>
    obtain ⟨k2, v2⟩ := p
    by_cases hk2 : k2 = c
    · subst hk2
      simp [setKey, getVal, Ne.symm h]
    · by_cases hkk : k2 = k
      · simp [setKey, getVal, hk2, hkk, h]
      · simp [setKey, getVal, hk2, hkk, ih]

/-- Writing a key of the state dict makes that key hold the written value. -/
theorem getVal_setKey_self (k v : Int) (st : CCState) :
    getVal k (setKey k v st) = some v := by
  induction st with
  | nil => simp [setKey, getVal]
  | cons p rest ih =>
    obtain ⟨k2, v2⟩ := p
    by_cases hk2 : k2 = k
    · subst hk2
      simp [setKey, getVal]
    · simp [setKey, getVal, hk2, ih]

/-- The handler reads no state entry other than its own rule's
control-number entry: on two states that agree at that key, it emits the
same message and leaves that key with the same value. -/
theorem handleRule_reads_only_control (m : Rule) (args : List PyVal)
    (st1 st2 : CCState) (c : Int) (hc : m.control = some c)
    (hst : getVal c st1 = getVal c st2) :
    (handleRule m args st1).2 = (handleRule m args st2).2
    ∧ getVal c (handleRule m args st1).1 = getVal c (handleRule m args st2).1 := by
  unfold handleRule
  cases htype : m.type_ with
  | none => exact ⟨rfl, hst⟩
  | some t =>
    simp only []
    by_cases h1 : t = "note_on_off"
    · simp only [if_pos h1]
      cases harg : args.head? with
      | none => exact ⟨rfl, hst⟩
      | some a0 =>
        simp only []
        cases hg : pyGtZero a0 with
        | none => exact ⟨rfl, hst⟩
        | some b =>
          simp only []
          cases m.channel <;> cases m.note <;> exact ⟨rfl, hst⟩
    · simp only [if_neg h1]
      by_cases h2 : t = "cc_absolute"
      · simp only [if_pos h2]
        cases harg : args.head? with
        | none => cases m.value_map <;> exact ⟨rfl, hst⟩
        | some a0 =>
          cases hvm : m.value_map with
          | none => exact ⟨rfl, hst⟩
          | some vm =>
            simp only []
            cases hs : scale_valueE a0 vm with
            | none => exact ⟨rfl, hst⟩
            | some mv =>
              simp only []
              cases m.channel <;> cases m.control <;> exact ⟨rfl, hst⟩
      · simp only [if_neg h2]
        by_cases h3 : t = "cc_relative"
        · simp only [if_pos h3]
          cases harg : args.head? with
          | none => exact ⟨rfl, hst⟩
          | some a0 =>
            simp only []
            cases hi : pyInt a0 with
            | none => exact ⟨rfl, hst⟩
            | some delta =>
              have haccum : accumulate st1 c delta = accumulate st2 c delta := by
                unfold accumulate
                rw [hst]
              simp only [hc]
              cases m.channel with
              | none =>
                refine ⟨rfl, ?_⟩
                show getVal c (setKey c (accumulate st1 c delta) st1)
                  = getVal c (setKey c (accumulate st2 c delta) st2)
                rw [getVal_setKey_self, getVal_setKey_self, haccum]
              | some ch =>
                refine ⟨?_, ?_⟩
                · show (mido_control_change ch c (accumulate st1 c delta)
                      : Option MidiMsg)
                    = mido_control_change ch c (accumulate st2 c delta)
                  rw [haccum]
                · show getVal c (setKey c (accumulate st1 c delta) st1)
                    = getVal c (setKey c (accumulate st2 c delta) st2)
                  rw [getVal_setKey_self, getVal_setKey_self, haccum]
        · simp only [if_neg h3]
          exact ⟨trivial, hst⟩

/-- The handler touches at most its own rule's control-number entry: every
other key of the state dict is left unchanged. -/
theorem handleRule_getVal_ne (m : Rule) (args : List PyVal) (st : CCState)
    (c k : Int) (hc : m.control = some c) (hk : k ≠ c) :
    getVal k (handleRule m args st).1 = getVal k st := by
  unfold handleRule
  split
  · rfl
  · split_ifs
    · split
      · rfl
      · split
        · rfl
        · split <;> split <;> rfl
    · split <;> try rfl
      split <;> try rfl
      split <;> rfl
    · split
      · rfl
      · split
        · rfl
        · split
          · rfl
          · rename_i control heq
            rw [hc] at heq
            injection heq with heq2
            subst heq2
            split <;> exact getVal_setKey_ne k c _ st hk
    · rfl

/-- Truncation toward zero is monotone. -/
theorem ratTrunc_mono {a b : ℚ} (h : a ≤ b) : ratTrunc a ≤ ratTrunc b := by
  unfold ratTrunc
  by_cases ha : 0 ≤ a <;> by_cases hb : 0 ≤ b <;> simp only [ha, hb, if_true, if_false]
  · exact Int.floor_le_floor h
  · exact absurd (ha.trans h) hb
  · calc (⌈a⌉ : ℤ) ≤ 0 := Int.ceil_le.mpr (by exact_mod_cast le_of_not_le ha)
      _ ≤ ⌊b⌋ := Int.floor_nonneg.mpr hb
  · exact Int.ceil_le_ceil h

/- ### Claim theorems -/

/-- Claim C1, counterexample: the source keys relative state by control
number alone (cc_values[control], tangent_to_midi.py:117-123), not by the
(channel, target) pair.  With two RelativeCC rules on different channels
but the same control number 20, a delta of +10 through the first rule
changes the value the second rule reads: its next delta-0 event emits 74
instead of the fresh-state 64, so events through one rule do read and
modify the accumulated value used by the other. -/
theorem c1_counterexample :
    osc_handler twoRuleTable "/a/delta" [.num 10] cc_values
      = ([(20, 74)], some (.control_change 0 20 74))
    ∧ osc_handler twoRuleTable "/b/delta" [.num 0] [(20, 74)]
      = ([(20, 74)], some (.control_change 1 20 74))
    ∧ osc_handler twoRuleTable "/b/delta" [.num 0] cc_values
      = ([(20, 64)], some (.control_change 1 20 64))
    ∧ (osc_handler twoRuleTable "/b/delta" [.num 0]
        (osc_handler twoRuleTable "/a/delta" [.num 10] cc_values).1).2
      ≠ (osc_handler twoRuleTable "/b/delta" [.num 0] cc_values).2 :=
  ⟨by decide, by decide, by decide, by decide⟩

/-- Claim C1, amended: relative-control state is keyed by the rule's
control number alone.  An event dispatched through a rule whose control
number is c never modifies the state entry of any other key, and never
reads any entry but its own: on two states agreeing at key c the handler
emits the same message and leaves key c with the same value.  So two
RelativeCC rules with distinct control numbers are isolated (but rules
sharing a control number on different channels share one entry). -/
theorem c1_state_keyed_by_control (table : List (String × Rule))
    (address : String) (args : List PyVal) (st : CCState) (r : Rule)
    (c : Int) (hmap : lookupTable table address = some r)
    (hc : r.control = some c) :
    (∀ k, k ≠ c → getVal k (osc_handler table address args st).1 = getVal k st)
    ∧ ∀ st2, getVal c st = getVal c st2 →
        (osc_handler table address args st).2
          = (osc_handler table address args st2).2
        ∧ getVal c (osc_handler table address args st).1
          = getVal c (osc_handler table address args st2).1 := by
  constructor
  · intro k hk
    unfold osc_handler
    rw [hmap]
    exact handleRule_getVal_ne r args st c k hc hk
  · intro st2 hst
    unfold osc_handler
    rw [hmap]
    exact handleRule_reads_only_control r args st st2 c hc hst

/-- Claim C1, witness: a delta event on the control-20 knob rule leaves
the control-21 entry untouched, and its emitted message is the same
whether or not an unrelated control-21 entry is present. -/
theorem c1_witness :
    getVal 21 (osc_handler MIDI_MAPPING "/tangent/kn/A/delta" [.num 3]
      cc_values).1 = getVal 21 cc_values
    ∧ (osc_handler MIDI_MAPPING "/tangent/kn/A/delta" [.num 3] cc_values).2
      = (osc_handler MIDI_MAPPING "/tangent/kn/A/delta" [.num 3] [(21, 99)]).2 :=
  ⟨(c1_state_keyed_by_control MIDI_MAPPING "/tangent/kn/A/delta" [.num 3]
      cc_values ⟨some "cc_relative", some 0, none, some 20, none⟩ 20
      (by decide) rfl).1 21 (by decide),
   ((c1_state_keyed_by_control MIDI_MAPPING "/tangent/kn/A/delta" [.num 3]
      cc_values ⟨some "cc_relative", some 0, none, some 20, none⟩ 20
      (by decide) rfl).2 [(21, 99)] (by decide)).1⟩

/-- Claim C2, counterexample: the mapping table is a plain dict literal;
building a table whose entry has channel 16 (invalid per the spec's
validation contract) succeeds rather than failing with a
ConfigurationError — no validation exists in the source. -/
theorem c2_counterexample :
    spec_validEntryB ⟨some "note_on_off", some 16, some 60, none, none⟩ = false
    ∧ buildMappingTable
        [("/bad", ⟨some "note_on_off", some 16, some 60, none, none⟩)]
      = Except.ok [("/bad", ⟨some "note_on_off", some 16, some 60, none, none⟩)] :=
  ⟨by decide, rfl⟩

/-- Claim C2, amended: construction of the mapping table performs no
validation and never fails — there is no ConfigurationError and startup
never aborts on a malformed entry; the shipped MIDI_MAPPING's entries do
all satisfy the spec's validity conditions (channel 0-15, target 0-127,
and for cc_absolute in_min < in_max and out_min ≤ out_max). -/
theorem c2_no_validation :
    (MIDI_MAPPING.all fun p => spec_validEntryB p.2) = true
    ∧ ∀ entries : List (String × Rule),
        buildMappingTable entries = Except.ok entries := by
  constructor
  · decide
  · intro entries
    rfl

/-- Claim C4: deltas +3, +3, -50 on the fresh control-20 rule yield 67,
70, 20 in order (first event initializes to 64 before adding); every
accumulated value is clamped into [0, 127]; and a large positive
(resp. negative) delta saturates at 127 (resp. 0) instead of wrapping. -/
theorem c4_relative_accumulation :
    (osc_handler MIDI_MAPPING "/tangent/kn/A/delta" [.num 3] cc_values
        = ([(20, 67)], some (.control_change 0 20 67))
      ∧ osc_handler MIDI_MAPPING "/tangent/kn/A/delta" [.num 3] [(20, 67)]
        = ([(20, 70)], some (.control_change 0 20 70))
      ∧ osc_handler MIDI_MAPPING "/tangent/kn/A/delta" [.num (-50)] [(20, 70)]
        = ([(20, 20)], some (.control_change 0 20 20)))
    ∧ (∀ st c delta, 0 ≤ accumulate st c delta ∧ accumulate st c delta ≤ 127)
    ∧ (∀ st c delta, 0 ≤ (getVal c st).getD 64 → 127 ≤ delta →
        accumulate st c delta = 127)
    ∧ (∀ st c delta, (getVal c st).getD 64 ≤ 127 → delta ≤ -127 →
        accumulate st c delta = 0) := by
  refine ⟨⟨by decide, by decide, by decide⟩, ?_, ?_, ?_⟩
  · intro st c delta
    unfold accumulate
    exact ⟨le_max_left 0 _, max_le (by norm_num) (min_le_left _ _)⟩
  · intro st c delta h1 h2
    unfold accumulate
    have h3 : (127:Int) ≤ (getVal c st).getD 64 + delta := by linarith
    rw [min_eq_left h3, max_eq_right (by norm_num : (0:Int) ≤ 127)]
  · intro st c delta h1 h2
    unfold accumulate
    have h3 : (getVal c st).getD 64 + delta ≤ 0 := by linarith
    have h4 : min 127 ((getVal c st).getD 64 + delta) ≤ 0 :=
      le_trans (min_le_right _ _) h3
    rw [max_eq_left h4]

/-- Claim C4, witness: a +200 delta on a fresh control saturates at 127
and a -200 delta saturates at 0. -/
theorem c4_witness :
    accumulate cc_values 20 200 = 127 ∧ accumulate cc_values 20 (-200) = 0 :=
  ⟨c4_relative_accumulation.2.2.1 cc_values 20 200 (by decide) (by decide),
   c4_relative_accumulation.2.2.2 cc_values 20 (-200) (by decide) (by decide)⟩

/-- Claim C8: an address absent from the mapping table produces no MIDI
message and leaves the state unchanged, for any arguments. -/
theorem c8_unmapped_no_message (table : List (String × Rule))
    (address : String) (args : List PyVal) (st : CCState)
    (h : lookupTable table address = none) :
    osc_handler table address args st = (st, none) := by
  unfold osc_handler
  rw [h]

/-- Claim C8, witness: an unmapped address on the shipped table is
silently ignored. -/
theorem c8_witness :
    osc_handler MIDI_MAPPING "/tangent/unmapped" [.num 1] cc_values
      = (cc_values, none) :=
  c8_unmapped_no_message MIDI_MAPPING "/tangent/unmapped" [.num 1] cc_values
    (by decide)

/-- Claim C10: a mapped rule whose type string is none of note_on_off,
cc_absolute, cc_relative falls through the if/elif chain silently: no
message, no exception, no state change. -/
theorem c10_unknown_type_silent (table : List (String × Rule))
    (address : String) (args : List PyVal) (st : CCState) (r : Rule)
    (t : String) (hmap : lookupTable table address = some r)
    (ht : r.type_ = some t) (h1 : t ≠ "note_on_off")
    (h2 : t ≠ "cc_absolute") (h3 : t ≠ "cc_relative") :
    osc_handler table address args st = (st, none) := by
  unfold osc_handler
  rw [hmap]
  show handleRule r args st = (st, none)
  unfold handleRule
  split
  · rfl
  · rename_i t2 htype2
    rw [ht] at htype2
    injection htype2 with ht2
    subst ht2
    rw [if_neg h1, if_neg h2, if_neg h3]

/-- Claim C10, witness: a rule with type "pitch_bend" is ignored. -/
theorem c10_witness :
    osc_handler bogusTable "/x/bend" [.num 1] cc_values = (cc_values, none) :=
  c10_unknown_type_silent bogusTable "/x/bend" [.num 1] cc_values
    ⟨some "pitch_bend", some 0, none, some 5, none⟩ "pitch_bend"
    (by decide) rfl (by decide) (by decide) (by decide)

/-- Claim C5, counterexample: with inMin = 0 < inMax = 1 but an inverted
output range (outMin = 1, outMax = 0), scale_value is decreasing, not
monotone non-decreasing; and with outMin = 1/2, outMax = 3/2 the result 0
at value 0 falls below outMin, so the result is not always in
[outMin, outMax] even for an ordered output range. -/
theorem c5_counterexample :
    ((0:ℚ) < 1 ∧ scale_value 0 0 1 1 0 = 1 ∧ scale_value 1 0 1 1 0 = 0
      ∧ ¬ scale_value 0 0 1 1 0 ≤ scale_value 1 0 1 1 0)
    ∧ ((0:ℚ) < 1 ∧ (1/2:ℚ) ≤ (3/2:ℚ) ∧ scale_value 0 0 1 (1/2) (3/2) = 0
      ∧ ¬ (1/2:ℚ) ≤ ((scale_value 0 0 1 (1/2) (3/2) : Int) : ℚ)) := by
  have e1 : scale_value 0 0 1 1 0 = 1 := by
    norm_num [scale_value, ratTrunc, min_def, max_def]
  have e2 : scale_value 1 0 1 1 0 = 0 := by
    norm_num [scale_value, ratTrunc, min_def, max_def]
  have e3 : scale_value 0 0 1 (1/2) (3/2) = 0 := by
    norm_num [scale_value, ratTrunc, min_def, max_def]
  refine ⟨⟨by norm_num, e1, e2, ?_⟩, ⟨by norm_num, by norm_num, e3, ?_⟩⟩
  · rw [e1, e2]
    norm_num
  · rw [e3]
    norm_num

/-- Claim C5, amended: for inMin < inMax and outMin ≤ outMax, scale_value
is monotone non-decreasing in its value argument, and its result always
lies in [trunc(outMin), trunc(outMax)] — in particular in
[outMin, outMax] whenever outMin and outMax are integers. -/
theorem c5_scale_monotone_bounded (in_min in_max out_min out_max : ℚ)
    (hin : in_min < in_max) (hout : out_min ≤ out_max) :
    (∀ v1 v2 : ℚ, v1 ≤ v2 → scale_value v1 in_min in_max out_min out_max
        ≤ scale_value v2 in_min in_max out_min out_max)
    ∧ ∀ v : ℚ, ratTrunc out_min ≤ scale_value v in_min in_max out_min out_max
        ∧ scale_value v in_min in_max out_min out_max ≤ ratTrunc out_max := by
  have hspan : (0:ℚ) < in_max - in_min := sub_pos.mpr hin
  have hos : (0:ℚ) ≤ out_max - out_min := sub_nonneg.mpr hout
  constructor
  · intro v1 v2 hv
    unfold scale_value
    apply ratTrunc_mono
    have hc : max in_min (min in_max v1) ≤ max in_min (min in_max v2) :=
      max_le_max le_rfl (min_le_min le_rfl hv)
    have h1 : max in_min (min in_max v1) - in_min
        ≤ max in_min (min in_max v2) - in_min := sub_le_sub_right hc _
    have h2 : (max in_min (min in_max v1) - in_min) / (in_max - in_min)
        ≤ (max in_min (min in_max v2) - in_min) / (in_max - in_min) := by
      rw [div_eq_mul_inv, div_eq_mul_inv]
      exact mul_le_mul_of_nonneg_right h1 (inv_nonneg.mpr hspan.le)
    have h3 := mul_le_mul_of_nonneg_right h2 hos
    exact add_le_add_left h3 out_min
  · intro v
    unfold scale_value
    have hcl : in_min ≤ max in_min (min in_max v) := le_max_left _ _
    have hcu : max in_min (min in_max v) ≤ in_max :=
      max_le hin.le (min_le_left _ _)
    have hs0 : 0 ≤ (max in_min (min in_max v) - in_min) / (in_max - in_min) :=
      div_nonneg (sub_nonneg.mpr hcl) hspan.le
    have hs1 : (max in_min (min in_max v) - in_min) / (in_max - in_min) ≤ 1 :=
      (div_le_one hspan).mpr (sub_le_sub_right hcu _)
    constructor
    · apply ratTrunc_mono
      have := mul_nonneg hs0 hos
      linarith
    · apply ratTrunc_mono
      have := mul_le_of_le_one_left hos hs1
      linarith

/-- Claim C5, witness: on the slider's range (0, 1) -> (0, 127), the scale
is monotone between 0 and 1 and the value 1/2 lands between trunc 0 = 0
and trunc 127 = 127. -/
theorem c5_witness :
    scale_value 0 0 1 0 127 ≤ scale_value 1 0 1 0 127
    ∧ ratTrunc 0 ≤ scale_value (1/2) 0 1 0 127
    ∧ scale_value (1/2) 0 1 0 127 ≤ ratTrunc 127 :=
  ⟨(c5_scale_monotone_bounded 0 1 0 127 (by norm_num) (by norm_num)).1 0 1
      (by norm_num),
   (c5_scale_monotone_bounded 0 1 0 127 (by norm_num) (by norm_num)).2 (1/2)⟩

/-- Claim C6: under the shipped cc_absolute rule (channel 0, control 22,
value_map 0.0-1.0 to 0-127), an event with argument 0.5 produces
ControlChange(0, 22, 63): 0.5 maps to 63.5 which truncates to 63, while
rounding would have given 64. -/
theorem c6_absolute_truncates :
    osc_handler MIDI_MAPPING "/tangent/sl/A/value" [.num (1/2)] cc_values
      = (cc_values, some (.control_change 0 22 63))
    ∧ scale_value (1/2) 0 1 0 127 = 63
    ∧ ratTrunc (127/2) = 63 ∧ round ((127:ℚ)/2) = 64 := by
  have hscale : scale_valueE (PyVal.num (2⁻¹ : ℚ)) ⟨0, 1, 0, 127⟩ = some 63 := by
    norm_num [scale_valueE, scale_value, ratTrunc, min_def, max_def]
  have hlook : lookupTable MIDI_MAPPING "/tangent/sl/A/value"
      = some ⟨some "cc_absolute", some 0, none, some 22, some ⟨0, 1, 0, 127⟩⟩ := by
    decide
  refine ⟨?_, ?_, ?_, ?_⟩
  · simp [osc_handler, hlook, handleRule, hscale, mido_control_change, cc_values]
  · norm_num [scale_value, ratTrunc, min_def, max_def]
  · norm_num [ratTrunc]
  · norm_num [round_eq]

/-- Claim C7: every event on the mapped note_on_off address with a numeric
first argument yields a NoteOn message (never any other kind) on channel
0, note 60, with velocity 127 exactly when the argument is positive and 0
otherwise; the state is untouched. -/
theorem c7_note_on_off (q : ℚ) (st : CCState) :
    osc_handler MIDI_MAPPING "/tangent/bt/A/press" [.num q] st
      = (st, some (.note_on 0 60 (if 0 < q then 127 else 0))) := by
  have hlook : lookupTable MIDI_MAPPING "/tangent/bt/A/press"
      = some ⟨some "note_on_off", some 0, some 60, none, none⟩ := by decide
  by_cases h : 0 < q <;>
    simp [osc_handler, hlook, handleRule, pyGtZero, mido_note_on, h]

/-- Claim C9: scale_value clamps its input — any value below inMin scales
exactly like inMin, and any value above inMax scales exactly like inMax. -/
theorem c9_scale_clamps (value in_min in_max out_min out_max : ℚ) :
    (value < in_min → scale_value value in_min in_max out_min out_max
        = scale_value in_min in_min in_max out_min out_max)
    ∧ (in_max < value → scale_value value in_min in_max out_min out_max
        = scale_value in_max in_min in_max out_min out_max) := by
  constructor
  · intro h
    have hclv : max in_min (min in_max value) = in_min :=
      max_eq_left (le_trans (min_le_right _ _) h.le)
    have hcli : max in_min (min in_max in_min) = in_min :=
      max_eq_left (min_le_right _ _)
    simp only [scale_value]
    rw [hclv, hcli]
  · intro h
    have hclv : min in_max value = in_max := min_eq_left h.le
    have hcli : min in_max in_max = in_max := min_self in_max
    simp only [scale_value]
    rw [hclv, hcli]

/-- Claim C9, witness: on the slider's range, -5 scales like 0 and 7
scales like 1. -/
theorem c9_witness :
    scale_value (-5) 0 1 0 127 = scale_value 0 0 1 0 127
    ∧ scale_value 7 0 1 0 127 = scale_value 1 0 1 0 127 :=
  ⟨(c9_scale_clamps (-5) 0 1 0 127).1 (by norm_num),
   (c9_scale_clamps 7 0 1 0 127).2 (by norm_num)⟩
